import Mathlib

/-!
Verification development for a residential solar+battery+grid microgrid
simulator.  The definitions below are a shallow embedding of the Python
sources (`src/components.py`, `src/strategy.py`): Python floats are modelled
as rationals (`ℚ`), except for the solar panel whose sinusoidal model uses
`Real.sin` and `Real.pi` and is therefore embedded over `ℝ`.  Randomness
(`random.random()`, `random.randint`) is modelled by passing the drawn values
explicitly as inputs to the step functions.
-/

/-- Battery energy storage state, mirroring `Battery.__init__` in
`components.py`: capacity, round-trip efficiency, minimum state-of-charge
fraction, current stored energy, and the derived one-way efficiency
(`efficiency_ow = sqrt(efficiency_rt)`, a field computed once at init). -/
structure Battery where
  capacity_kwh : ℚ
  efficiency_rt : ℚ
  min_soc_limit_pct : ℚ
  current_energy_kwh : ℚ
  efficiency_ow : ℚ
deriving DecidableEq, Repr

/-- `Battery.__init__`: the constructor relation.  `efficiency_ow` is
`math.sqrt(efficiency_rt)`, i.e. the unique nonnegative square root, which
over `ℚ` is captured by the last two conjuncts. -/
def Battery.InitFrom (b : Battery) (capacity efficiency discharge_depth initial_state : ℚ) : Prop :=
  b.capacity_kwh = capacity ∧
  b.efficiency_rt = efficiency ∧
  b.min_soc_limit_pct = discharge_depth ∧
  b.current_energy_kwh = capacity * initial_state ∧
  0 ≤ b.efficiency_ow ∧
  b.efficiency_ow ^ 2 = efficiency

instance (b : Battery) (c e d i : ℚ) : Decidable (b.InitFrom c e d i) := by
  unfold Battery.InitFrom; infer_instance

/-- `Battery.charge`: returns the energy actually consumed from the source
together with the updated battery (the Python method mutates `self` and
returns `real_input`). -/
def Battery.charge (b : Battery) (energy_input_kwh : ℚ) : ℚ × Battery :=
  let energy_to_store := energy_input_kwh * b.efficiency_ow
  let space_available := b.capacity_kwh - b.current_energy_kwh
  if energy_to_store > space_available then
    (space_available / b.efficiency_ow,
      { b with current_energy_kwh := b.current_energy_kwh + space_available })
  else
    (energy_input_kwh,
      { b with current_energy_kwh := b.current_energy_kwh + energy_to_store })

/-- `Battery.discharge`: returns the energy actually delivered together with
the updated battery. -/
def Battery.discharge (b : Battery) (energy_needed_kwh : ℚ) : ℚ × Battery :=
  let min_energy_kwh := b.capacity_kwh * b.min_soc_limit_pct
  let available_energy := b.current_energy_kwh - min_energy_kwh
  if available_energy ≤ 0 then
    (0, b)
  else
    let energy_to_drain := energy_needed_kwh / b.efficiency_ow
    if energy_to_drain > available_energy then
      (available_energy * b.efficiency_ow,
        { b with current_energy_kwh := b.current_energy_kwh - available_energy })
    else
      (energy_needed_kwh,
        { b with current_energy_kwh := b.current_energy_kwh - energy_to_drain })

/-- The state-of-charge invariant stated in the spec:
`min_soc_fraction * capacity <= current_energy <= capacity`
(the reserve floor is computed as `capacity * min_soc_limit_pct`). -/
def Battery.SocInvariant (b : Battery) : Prop :=
  b.capacity_kwh * b.min_soc_limit_pct ≤ b.current_energy_kwh ∧
  b.current_energy_kwh ≤ b.capacity_kwh

instance (b : Battery) : Decidable b.SocInvariant := by
  unfold Battery.SocInvariant; infer_instance

/-- One battery operation: a `charge` or a `discharge` request. -/
inductive BatOp where
  | charge (amount : ℚ)
  | discharge (amount : ℚ)
deriving DecidableEq, Repr

/-- The requested amount of an operation. -/
def BatOp.amount : BatOp → ℚ
  | .charge a => a
  | .discharge a => a

/-- Apply one operation to a battery, discarding the returned energy. -/
def Battery.applyOp (b : Battery) (op : BatOp) : Battery :=
  match op with
  | .charge a => (b.charge a).2
  | .discharge a => (b.discharge a).2

/-- Apply a sequence of charge/discharge operations. -/
def Battery.applyOps (b : Battery) : List BatOp → Battery
  | [] => b
  | op :: rest => (b.applyOp op).applyOps rest

/-- Run a sequence of `discharge` calls, collecting the total energy
delivered and the final battery. -/
def Battery.dischargeSeq (b : Battery) : List ℚ → ℚ × Battery
  | [] => (0, b)
  | y :: rest =>
    let r := b.discharge y
    let t := r.2.dischargeSeq rest
    (r.1 + t.1, t.2)

/-- The `flow_log` dictionary built by `EnergyManager.decide_energy_flow`
in `strategy.py`: where the energy of one step went. -/
structure FlowRecord where
  solar_to_load : ℚ
  solar_to_battery : ℚ
  solar_to_grid : ℚ
  grid_import : ℚ
  battery_discharge : ℚ
  curtailed : ℚ
deriving DecidableEq, Repr

/-- The all-zero `flow_log` initialised at the top of `decide_energy_flow`. -/
def FlowRecord.empty : FlowRecord :=
  { solar_to_load := 0, solar_to_battery := 0, solar_to_grid := 0,
    grid_import := 0, battery_discharge := 0, curtailed := 0 }

/-- `EnergyManager._run_load_priority`: serve load from solar, cover the
deficit from battery then grid; charge the battery with surplus, export up
to the grid limit, curtail the rest.  Returns the filled log and the
updated battery. -/
def run_load_priority (solar load : ℚ) (battery : Battery) (grid_limit : ℚ) :
    FlowRecord × Battery :=
  let step1 : FlowRecord × ℚ × Battery :=
    if solar ≥ load then
      ({ FlowRecord.empty with solar_to_load := load }, solar - load, battery)
    else
      let deficit := load - solar
      let dres := battery.discharge deficit
      let remaining_deficit := deficit - dres.1
      ({ FlowRecord.empty with
          solar_to_load := solar,
          battery_discharge := dres.1,
          grid_import := if remaining_deficit > 0 then remaining_deficit else 0 },
        0, dres.2)
  let step2 : FlowRecord × ℚ × Battery :=
    if step1.2.1 > 0 then
      let cres := step1.2.2.charge step1.2.1
      ({ step1.1 with solar_to_battery := cres.1 }, step1.2.1 - cres.1, cres.2)
    else step1
  let step3 : FlowRecord × ℚ × Battery :=
    if step2.2.1 > 0 then
      let to_export := min step2.2.1 grid_limit
      ({ step2.1 with solar_to_grid := to_export }, step2.2.1 - to_export, step2.2.2)
    else step2
  if step3.2.1 > 0 then ({ step3.1 with curtailed := step3.2.1 }, step3.2.2)
  else (step3.1, step3.2.2)

/-- `EnergyManager._run_charge_priority`: charge the battery first, serve
load from whatever solar is left, cover any deficit entirely from the grid
(the battery is never discharged), export, and assign the remainder to
curtailment unconditionally. -/
def run_charge_priority (solar load : ℚ) (battery : Battery) (grid_limit : ℚ) :
    FlowRecord × Battery :=
  let step1 : FlowRecord × ℚ × Battery :=
    if solar > 0 then
      let cres := battery.charge solar
      ({ FlowRecord.empty with solar_to_battery := cres.1 }, solar - cres.1, cres.2)
    else (FlowRecord.empty, solar, battery)
  let step2 : FlowRecord × ℚ :=
    if step1.2.1 ≥ load then
      ({ step1.1 with solar_to_load := load }, step1.2.1 - load)
    else
      ({ step1.1 with solar_to_load := step1.2.1, grid_import := load - step1.2.1 }, 0)
  let step3 : FlowRecord × ℚ :=
    if step2.2 > 0 then
      let to_export := min step2.2 grid_limit
      ({ step2.1 with solar_to_grid := to_export }, step2.2 - to_export)
    else step2
  ({ step3.1 with curtailed := step3.2 }, step1.2.2)

/-- `EnergyManager._run_produce_priority`: export up to the grid limit
first, charge the battery second, serve load last (covering a deficit from
battery discharge then grid import), and assign the remainder to
curtailment unconditionally. -/
def run_produce_priority (solar load : ℚ) (battery : Battery) (grid_limit : ℚ) :
    FlowRecord × Battery :=
  let to_export := min solar grid_limit
  let log1 := { FlowRecord.empty with solar_to_grid := to_export }
  let remaining1 := solar - to_export
  let step2 : FlowRecord × ℚ × Battery :=
    if remaining1 > 0 then
      let cres := battery.charge remaining1
      ({ log1 with solar_to_battery := cres.1 }, remaining1 - cres.1, cres.2)
    else (log1, remaining1, battery)
  let step3 : FlowRecord × ℚ × Battery :=
    if step2.2.1 ≥ load then
      ({ step2.1 with solar_to_load := load }, step2.2.1 - load, step2.2.2)
    else
      let deficit := load - step2.2.1
      let dres := step2.2.2.discharge deficit
      ({ step2.1 with
          solar_to_load := step2.2.1,
          battery_discharge := dres.1,
          grid_import := deficit - dres.1 }, 0, dres.2)
  ({ step3.1 with curtailed := step3.2.1 }, step3.2.2)

/-- The `EnergyManager` configuration: the strategy name string. -/
structure EnergyManager where
  strategy_name : String
deriving DecidableEq, Repr

/-- `EnergyManager.decide_energy_flow`: dispatch on the configured strategy
name; unrecognised names fall back to `_run_load_priority`. -/
def EnergyManager.decide_energy_flow (m : EnergyManager)
    (solar_gen_kw load_demand_kw : ℚ) (battery : Battery) (grid_limit_kw : ℚ) :
    FlowRecord × Battery :=
  if m.strategy_name = "LOAD_PRIORITY" then
    run_load_priority solar_gen_kw load_demand_kw battery grid_limit_kw
  else if m.strategy_name = "CHARGE_PRIORITY" then
    run_charge_priority solar_gen_kw load_demand_kw battery grid_limit_kw
  else if m.strategy_name = "PRODUCE_PRIORITY" then
    run_produce_priority solar_gen_kw load_demand_kw battery grid_limit_kw
  else
    run_load_priority solar_gen_kw load_demand_kw battery grid_limit_kw

/-- Inverter state, mirroring `Inverter.__init__` in `components.py`.
`hours_until_repair` is an integer because it is set from
`random.randint(min_repair_time, max_repair_time)`. -/
structure Inverter where
  max_output_kw : ℚ
  failure_probability : ℚ
  min_repair_time : ℤ
  max_repair_time : ℤ
  is_broken : Bool
  hours_until_repair : ℤ
deriving DecidableEq, Repr

/-- The random draws consumed by one `Inverter.check_status` call:
`roll` models `random.random()` and `dur` models
`random.randint(min_repair_time, max_repair_time)` (only consulted when a
new failure is rolled). -/
structure StepRand where
  roll : ℚ
  dur : ℤ
deriving DecidableEq, Repr

/-- The failure roll at the end of `Inverter.check_status`: with the drawn
`roll` below `failure_probability` the inverter breaks and stores the drawn
repair duration. -/
def Inverter.roll_failure (inv : Inverter) (r : StepRand) : Bool × Inverter :=
  if r.roll < inv.failure_probability then
    (false, { inv with is_broken := true, hours_until_repair := r.dur })
  else
    (true, inv)

/-- `Inverter.check_status`: if broken, decrement the repair timer and
either stay broken or fall through (repair complete) to the failure roll;
if working, go straight to the failure roll. -/
def Inverter.check_status (inv : Inverter) (r : StepRand) : Bool × Inverter :=
  if inv.is_broken then
    let inv1 := { inv with hours_until_repair := inv.hours_until_repair - 1 }
    if inv1.hours_until_repair ≤ 0 then
      Inverter.roll_failure { inv1 with is_broken := false } r
    else
      (false, inv1)
  else
    Inverter.roll_failure inv r

/-- `Inverter.clip_power`: calls `check_status`; returns 0 if broken, else
the DC input clipped to `max_output_kw`. -/
def Inverter.clip_power (inv : Inverter) (r : StepRand) (dc_power_kw : ℚ) :
    ℚ × Inverter :=
  let s := inv.check_status r
  if s.1 = false then (0, s.2)
  else (min dc_power_kw inv.max_output_kw, s.2)

/-- Run `clip_power` over a sequence of steps (one random draw pair and one
DC input per step), collecting the AC outputs. -/
def Inverter.run_clip (inv : Inverter) : List (StepRand × ℚ) → List ℚ × Inverter
  | [] => ([], inv)
  | s :: rest =>
    let r := inv.clip_power s.1 s.2
    let t := r.2.run_clip rest
    (r.1 :: t.1, t.2)

/-- Solar array state: peak generation capacity, from
`SolarPanel.__init__`. -/
structure SolarPanel where
  peak_power_kw : ℝ

/-- `SolarPanel.get_generation`: zero outside the daylight window
(hour < 6 or hour > 18); inside, a sine arch scaled by cloud coverage and
floored at 0. -/
noncomputable def SolarPanel.get_generation (p : SolarPanel)
    (time_of_day_hour cloud_coverage_pct : ℝ) : ℝ :=
  if time_of_day_hour < 6 ∨ time_of_day_hour > 18 then 0
  else
    let sun_angle := (time_of_day_hour - 6) * (Real.pi / 12)
    let base_generation := p.peak_power_kw * Real.sin sun_angle
    max 0 (base_generation * (1 - cloud_coverage_pct))

/-! ## Helper lemmas about the battery operations -/

lemma Battery.charge_capacity (b : Battery) (x : ℚ) :
    (b.charge x).2.capacity_kwh = b.capacity_kwh := by
  simp only [Battery.charge]; split <;> rfl

lemma Battery.charge_efficiency_ow (b : Battery) (x : ℚ) :
    (b.charge x).2.efficiency_ow = b.efficiency_ow := by
  simp only [Battery.charge]; split <;> rfl

lemma Battery.charge_min_soc (b : Battery) (x : ℚ) :
    (b.charge x).2.min_soc_limit_pct = b.min_soc_limit_pct := by
  simp only [Battery.charge]; split <;> rfl

lemma Battery.discharge_capacity (b : Battery) (y : ℚ) :
    (b.discharge y).2.capacity_kwh = b.capacity_kwh := by
  simp only [Battery.discharge]; split
  · rfl
  · split <;> rfl

lemma Battery.discharge_efficiency_ow (b : Battery) (y : ℚ) :
    (b.discharge y).2.efficiency_ow = b.efficiency_ow := by
  simp only [Battery.discharge]; split
  · rfl
  · split <;> rfl

lemma Battery.discharge_min_soc (b : Battery) (y : ℚ) :
    (b.discharge y).2.min_soc_limit_pct = b.min_soc_limit_pct := by
  simp only [Battery.discharge]; split
  · rfl
  · split <;> rfl

/-- The energy a `charge` call reports as consumed never exceeds the request
(for nonnegative requests and nonnegative one-way efficiency). -/
lemma Battery.charge_fst_le (b : Battery) (x : ℚ)
    (heff : 0 ≤ b.efficiency_ow) (hx : 0 ≤ x) : (b.charge x).1 ≤ x := by
  simp only [Battery.charge]
  split_ifs with h
  · dsimp only
    rcases eq_or_lt_of_le heff with heff' | heff'
    · rw [← heff', div_zero]
      exact hx
    · have hlt : b.capacity_kwh - b.current_energy_kwh < x * b.efficiency_ow := h
      rw [div_le_iff heff']
      linarith
  · exact le_refl x

/-- When there is enough headroom, `charge` consumes the full input and
stores `input * one_way_efficiency`. -/
lemma Battery.charge_no_clip (b : Battery) (x : ℚ)
    (h : x * b.efficiency_ow ≤ b.capacity_kwh - b.current_energy_kwh) :
    b.charge x =
      (x, { b with current_energy_kwh :=
              b.current_energy_kwh + x * b.efficiency_ow }) := by
  simp only [Battery.charge]
  rw [if_neg (not_lt.mpr h)]

/-- The energy a `discharge` call delivers never exceeds the request (for
nonnegative requests), whatever the battery state. -/
lemma Battery.discharge_fst_le (b : Battery) (y : ℚ) (hy : 0 ≤ y) :
    (b.discharge y).1 ≤ y := by
  simp only [Battery.discharge]
  split_ifs with h1 h2
  · exact hy
  · -- clipping branch: `y / eff > available > 0` forces `eff > 0`
    dsimp only
    have havail : 0 < b.current_energy_kwh - b.capacity_kwh * b.min_soc_limit_pct := by
      linarith [not_le.mp h1]
    have hdiv : b.current_energy_kwh - b.capacity_kwh * b.min_soc_limit_pct
        < y / b.efficiency_ow := h2
    have heffpos : 0 < b.efficiency_ow := by
      by_contra hle
      push_neg at hle
      rcases lt_or_eq_of_le hle with hlt | heq
      · have : y / b.efficiency_ow ≤ 0 := div_nonpos_of_nonneg_of_nonpos hy hlt.le
        linarith
      · rw [heq, div_zero] at hdiv
        linarith
    have := (lt_div_iff heffpos).mp hdiv
    linarith
  · exact le_refl y

/-- In every branch of `discharge`, the delivered energy equals the drained
stored energy times the one-way efficiency. -/
lemma Battery.discharge_fst_eq_drain (b : Battery) (y : ℚ)
    (heff : b.efficiency_ow ≠ 0) :
    (b.discharge y).1 =
      (b.current_energy_kwh - (b.discharge y).2.current_energy_kwh) * b.efficiency_ow := by
  simp only [Battery.discharge]
  split_ifs with h1 h2
  · simp
  · simp only []
    ring
  · simp only []
    field_simp

/-- `charge` preserves the state-of-charge bounds for nonnegative input. -/
lemma Battery.charge_soc (b : Battery) (x : ℚ)
    (heff : 0 ≤ b.efficiency_ow) (hx : 0 ≤ x) (hinv : b.SocInvariant) :
    (b.charge x).2.SocInvariant := by
  obtain ⟨hlo, hhi⟩ := hinv
  simp only [Battery.charge, Battery.SocInvariant]
  split_ifs with h
  · constructor <;> simp <;> linarith
  · have hstore : 0 ≤ x * b.efficiency_ow := mul_nonneg hx heff
    have hroom : x * b.efficiency_ow ≤ b.capacity_kwh - b.current_energy_kwh :=
      not_lt.mp h
    constructor <;> simp <;> linarith

/-- `discharge` preserves the state-of-charge bounds for nonnegative
requests. -/
lemma Battery.discharge_soc (b : Battery) (y : ℚ)
    (heff : 0 ≤ b.efficiency_ow) (hy : 0 ≤ y) (hinv : b.SocInvariant) :
    (b.discharge y).2.SocInvariant := by
  obtain ⟨hlo, hhi⟩ := hinv
  simp only [Battery.discharge, Battery.SocInvariant]
  split_ifs with h1 h2
  · exact ⟨hlo, hhi⟩
  · constructor <;> simp <;> linarith
  · have hdrain : 0 ≤ y / b.efficiency_ow := div_nonneg hy heff
    have hle : y / b.efficiency_ow ≤
        b.current_energy_kwh - b.capacity_kwh * b.min_soc_limit_pct := not_lt.mp h2
    constructor <;> simp <;> linarith

lemma Battery.applyOp_efficiency_ow (b : Battery) (op : BatOp) :
    (b.applyOp op).efficiency_ow = b.efficiency_ow := by
  cases op
  · exact b.charge_efficiency_ow _
  · exact b.discharge_efficiency_ow _

/-- One charge/discharge operation with a nonnegative amount preserves the
state-of-charge bounds. -/
lemma Battery.applyOp_soc (b : Battery) (op : BatOp)
    (heff : 0 ≤ b.efficiency_ow) (hinv : b.SocInvariant)
    (hop : 0 ≤ op.amount) : (b.applyOp op).SocInvariant := by
  cases op
  · exact b.charge_soc _ heff hop hinv
  · exact b.discharge_soc _ heff hop hinv

/-- `dischargeSeq` distributes as expected over cons. -/
lemma Battery.dischargeSeq_cons (b : Battery) (y : ℚ) (ys : List ℚ) :
    b.dischargeSeq (y :: ys) =
      ((b.discharge y).1 + ((b.discharge y).2.dischargeSeq ys).1,
        ((b.discharge y).2.dischargeSeq ys).2) := rfl

/-- Total energy delivered by a sequence of discharges equals the total
drop in stored energy times the one-way efficiency. -/
lemma Battery.dischargeSeq_total (ys : List ℚ) (b : Battery)
    (heff : b.efficiency_ow ≠ 0) :
    (b.dischargeSeq ys).1 =
      (b.current_energy_kwh - (b.dischargeSeq ys).2.current_energy_kwh)
        * b.efficiency_ow := by
  induction ys generalizing b with
  | nil => simp [Battery.dischargeSeq]
  | cons y ys ih =>
    rw [Battery.dischargeSeq_cons]
    dsimp only
    have heff1 : (b.discharge y).2.efficiency_ow ≠ 0 := by
      rw [b.discharge_efficiency_ow]; exact heff
    have h1 := b.discharge_fst_eq_drain y heff
    have h2 := ih (b.discharge y).2 heff1
    rw [b.discharge_efficiency_ow] at h2
    rw [h1, h2]
    ring

/-- C1 counterexample battery: a valid state sitting exactly at the reserve
floor (capacity 10 kWh, floor 0.5 kWh). -/
def bAtFloor : Battery :=
  { capacity_kwh := 10, efficiency_rt := 81/100, min_soc_limit_pct := 1/20,
    current_energy_kwh := 1/2, efficiency_ow := 9/10 }

/-- C1 (counterexample): the state-of-charge bounds are NOT preserved by
arbitrary call sequences: a single `charge(-1)` on a battery sitting at the
reserve floor drives the stored energy below the floor (the code has no
guard against negative requests). -/
theorem soc_invariant_not_preserved_for_negative_requests :
    bAtFloor.SocInvariant ∧
    ¬ (bAtFloor.applyOps [BatOp.charge (-1)]).SocInvariant := by
  constructor
  · norm_num [bAtFloor, Battery.SocInvariant]
  · norm_num [bAtFloor, Battery.SocInvariant, Battery.applyOps, Battery.applyOp,
      Battery.charge]

/-- C1 (amended): for every battery with nonnegative one-way efficiency
whose stored energy satisfies the state-of-charge bounds, any sequence of
`charge`/`discharge` calls with nonnegative requested amounts preserves
`min_soc_fraction*capacity <= current_energy <= capacity`. -/
theorem soc_invariant_preserved (b : Battery) (ops : List BatOp)
    (heff : 0 ≤ b.efficiency_ow) (hinv : b.SocInvariant)
    (hops : ∀ op ∈ ops, 0 ≤ op.amount) :
    (b.applyOps ops).SocInvariant := by
  induction ops generalizing b with
  | nil => exact hinv
  | cons op rest ih =>
    have hop : 0 ≤ op.amount := hops op (List.mem_cons_self op rest)
    have heff1 : 0 ≤ (b.applyOp op).efficiency_ow := by
      rw [b.applyOp_efficiency_ow]; exact heff
    exact ih (b.applyOp op) heff1 (b.applyOp_soc op heff hinv hop)
      (fun o ho => hops o (List.mem_cons_of_mem op ho))

/-- Witness for the amended C1 at a concrete battery and operation list. -/
theorem soc_invariant_preserved_witness :
    (bAtFloor.applyOps [BatOp.charge 2, BatOp.discharge 1,
      BatOp.charge 100, BatOp.discharge 100]).SocInvariant :=
  soc_invariant_preserved bAtFloor _ (by norm_num [bAtFloor])
    (by norm_num [bAtFloor, Battery.SocInvariant])
    (by
      intro op hop
      simp only [List.mem_cons, List.not_mem_nil, or_false] at hop
      rcases hop with rfl | rfl | rfl | rfl <;> norm_num [BatOp.amount])

/-- C3 failing input: a valid half-full battery (capacity 10 kWh, one-way
efficiency 0.9, reserve 5%, stored 5 kWh). -/
def bHalf : Battery :=
  { capacity_kwh := 10, efficiency_rt := 81/100, min_soc_limit_pct := 1/20,
    current_energy_kwh := 5, efficiency_ow := 9/10 }

/-- C3 (code bug): contrary to the spec requirement that zero or negative
requests be no-ops returning 0, `charge(-2)` returns -2 and lowers the
stored energy from 5 to 3.2 kWh, and `discharge(-2)` returns -2 and raises
the stored energy from 5 to 65/9 kWh.  (Zero requests are indeed no-ops.) -/
theorem negative_requests_are_not_noops :
    bHalf.SocInvariant ∧
    (bHalf.charge (-2)).1 = -2 ∧
    (bHalf.charge (-2)).2.current_energy_kwh = 16/5 ∧
    (bHalf.discharge (-2)).1 = -2 ∧
    (bHalf.discharge (-2)).2.current_energy_kwh = 65/9 ∧
    bHalf.charge 0 = (0, bHalf) ∧
    bHalf.discharge 0 = (0, bHalf) := by
  norm_num [bHalf, Battery.SocInvariant, Battery.charge, Battery.discharge]

/-- C5: round-trip loss law.  Starting from any battery with one-way
efficiency `0 < eff_ow` and round-trip efficiency `eff_ow^2 < 1`, a fully
absorbed positive charge of `x` followed by any sequence of discharge calls
that brings the stored energy back exactly to its pre-charge level delivers
a total output of exactly `x * (round-trip efficiency)`, which is strictly
less than `x`. -/
theorem battery_round_trip_loss (b : Battery) (x : ℚ) (ys : List ℚ)
    (heff : 0 < b.efficiency_ow)
    (hrt : b.efficiency_rt = b.efficiency_ow ^ 2)
    (hrt1 : b.efficiency_rt < 1)
    (hx : 0 < x)
    (habsorb : x * b.efficiency_ow ≤ b.capacity_kwh - b.current_energy_kwh)
    (hreturn : ((b.charge x).2.dischargeSeq ys).2.current_energy_kwh
      = b.current_energy_kwh) :
    (b.charge x).1 = x ∧
    ((b.charge x).2.dischargeSeq ys).1 = x * b.efficiency_rt ∧
    ((b.charge x).2.dischargeSeq ys).1 < x := by
  have hcharge := b.charge_no_clip x habsorb
  have hfst : (b.charge x).1 = x := by rw [hcharge]
  have hcur : (b.charge x).2.current_energy_kwh
      = b.current_energy_kwh + x * b.efficiency_ow := by rw [hcharge]
  have heff1 : (b.charge x).2.efficiency_ow = b.efficiency_ow :=
    b.charge_efficiency_ow x
  have htotal := Battery.dischargeSeq_total ys (b.charge x).2
    (by rw [heff1]; exact ne_of_gt heff)
  rw [heff1, hcur, hreturn] at htotal
  have htotal' : ((b.charge x).2.dischargeSeq ys).1 = x * b.efficiency_rt := by
    rw [htotal, hrt]; ring
  refine ⟨hfst, htotal', ?_⟩
  rw [htotal']
  calc x * b.efficiency_rt < x * 1 := by
        exact mul_lt_mul_of_pos_left hrt1 hx
    _ = x := mul_one x

/-- Witness for C5: charging 2 kWh into the half-full battery and then
discharging 1.62 kWh (= 2 * 0.81) returns the stored energy exactly to
5 kWh, so the round trip delivers 1.62 < 2. -/
theorem battery_round_trip_loss_witness :
    (bHalf.charge 2).1 = 2 ∧
    ((bHalf.charge 2).2.dischargeSeq [81/50]).1 = 2 * bHalf.efficiency_rt ∧
    ((bHalf.charge 2).2.dischargeSeq [81/50]).1 < 2 :=
  battery_round_trip_loss bHalf 2 [81/50] (by norm_num [bHalf])
    (by norm_num [bHalf]) (by norm_num [bHalf]) (by norm_num)
    (by norm_num [bHalf])
    (by norm_num [bHalf, Battery.charge, Battery.dischargeSeq, Battery.discharge])

/-- C9: a battery constructed with `initial_state < discharge_depth` and
positive capacity starts strictly below the reserve floor
`capacity * min_soc_fraction`; moreover from any below-floor state a
discharge of any positive amount returns 0 and leaves the battery
unchanged. -/
theorem battery_init_below_floor (b : Battery)
    (capacity efficiency discharge_depth initial_state : ℚ)
    (hinit : b.InitFrom capacity efficiency discharge_depth initial_state)
    (hlt : initial_state < discharge_depth) (hcap : 0 < capacity) :
    b.current_energy_kwh < b.capacity_kwh * b.min_soc_limit_pct ∧
    (∀ b2 : Battery,
      b2.current_energy_kwh < b2.capacity_kwh * b2.min_soc_limit_pct →
      ∀ x : ℚ, 0 < x → b2.discharge x = (0, b2)) := by
  obtain ⟨hc, he, hd, hcur, howpos, how⟩ := hinit
  constructor
  · rw [hc, hd, hcur]
    exact mul_lt_mul_of_pos_left hlt hcap
  · intro b2 hbelow x hx
    simp only [Battery.discharge]
    rw [if_pos (by linarith)]

/-- A battery freshly constructed with capacity 10, round-trip efficiency
0.81, discharge_depth 0.05 and the default initial_state 0. -/
def bEmptyInit : Battery :=
  { capacity_kwh := 10, efficiency_rt := 81/100, min_soc_limit_pct := 1/20,
    current_energy_kwh := 0, efficiency_ow := 9/10 }

/-- Witness for C9 with the default-style configuration
(initial_state 0 < discharge_depth 0.05, capacity 10, efficiency 0.81). -/
theorem battery_init_below_floor_witness :
    bEmptyInit.InitFrom 10 (81/100) (1/20) 0 ∧
    bEmptyInit.current_energy_kwh
      < bEmptyInit.capacity_kwh * bEmptyInit.min_soc_limit_pct ∧
    bEmptyInit.discharge 1 = (0, bEmptyInit) := by
  have hinit : bEmptyInit.InitFrom 10 (81/100) (1/20) 0 := by
    norm_num [bEmptyInit, Battery.InitFrom]
  have h := battery_init_below_floor bEmptyInit 10 (81/100) (1/20) 0 hinit
    (by norm_num) (by norm_num)
  exact ⟨hinit, h.1, h.2 bEmptyInit h.1 1 (by norm_num)⟩

/-- LOAD_PRIORITY meets the load exactly from solar, battery and grid. -/
lemma run_load_priority_load_balance (solar load : ℚ) (b : Battery) (grid_limit : ℚ) :
    (run_load_priority solar load b grid_limit).1.solar_to_load
      + (run_load_priority solar load b grid_limit).1.battery_discharge
      + (run_load_priority solar load b grid_limit).1.grid_import = load := by
  have hd : (b.discharge (load - solar)).1 ≤ load - solar ∨ load ≤ solar := by
    rcases le_or_lt load solar with h | h
    · exact Or.inr h
    · exact Or.inl (b.discharge_fst_le (load - solar) (by linarith))
  simp only [run_load_priority]
  split_ifs <;> simp_all [FlowRecord.empty] <;> linarith

/-- CHARGE_PRIORITY meets the load exactly from solar and grid. -/
lemma run_charge_priority_load_balance (solar load : ℚ) (b : Battery) (grid_limit : ℚ) :
    (run_charge_priority solar load b grid_limit).1.solar_to_load
      + (run_charge_priority solar load b grid_limit).1.battery_discharge
      + (run_charge_priority solar load b grid_limit).1.grid_import = load := by
  simp only [run_charge_priority]
  split_ifs <;> simp_all [FlowRecord.empty] <;> linarith

/-- PRODUCE_PRIORITY meets the load exactly from solar, battery and grid. -/
lemma run_produce_priority_load_balance (solar load : ℚ) (b : Battery) (grid_limit : ℚ) :
    (run_produce_priority solar load b grid_limit).1.solar_to_load
      + (run_produce_priority solar load b grid_limit).1.battery_discharge
      + (run_produce_priority solar load b grid_limit).1.grid_import = load := by
  simp only [run_produce_priority]
  split_ifs <;> simp_all [FlowRecord.empty] <;> linarith

/-- LOAD_PRIORITY allocates the solar input exactly. -/
lemma run_load_priority_solar_allocation (solar load : ℚ) (b : Battery) (grid_limit : ℚ)
    (heff : 0 ≤ b.efficiency_ow) :
    (run_load_priority solar load b grid_limit).1.solar_to_load
      + (run_load_priority solar load b grid_limit).1.solar_to_battery
      + (run_load_priority solar load b grid_limit).1.solar_to_grid
      + (run_load_priority solar load b grid_limit).1.curtailed = solar := by
  have hc : load ≤ solar → (b.charge (solar - load)).1 ≤ solar - load := fun h =>
    b.charge_fst_le (solar - load) heff (by linarith)
  have hmin1 : min (solar - load - (b.charge (solar - load)).1) grid_limit
      ≤ solar - load - (b.charge (solar - load)).1 := min_le_left _ _
  simp only [run_load_priority]
  split_ifs <;> simp_all [FlowRecord.empty] <;> linarith

/-- CHARGE_PRIORITY allocates the solar input exactly. -/
lemma run_charge_priority_solar_allocation (solar load : ℚ) (b : Battery) (grid_limit : ℚ) :
    (run_charge_priority solar load b grid_limit).1.solar_to_load
      + (run_charge_priority solar load b grid_limit).1.solar_to_battery
      + (run_charge_priority solar load b grid_limit).1.solar_to_grid
      + (run_charge_priority solar load b grid_limit).1.curtailed = solar := by
  simp only [run_charge_priority]
  split_ifs <;> simp_all [FlowRecord.empty] <;> linarith

/-- PRODUCE_PRIORITY allocates the solar input exactly. -/
lemma run_produce_priority_solar_allocation (solar load : ℚ) (b : Battery) (grid_limit : ℚ) :
    (run_produce_priority solar load b grid_limit).1.solar_to_load
      + (run_produce_priority solar load b grid_limit).1.solar_to_battery
      + (run_produce_priority solar load b grid_limit).1.solar_to_grid
      + (run_produce_priority solar load b grid_limit).1.curtailed = solar := by
  simp only [run_produce_priority]
  split_ifs <;> simp_all [FlowRecord.empty] <;> linarith

/-- C2: for every strategy name (the three recognised ones and the
fallback) and all nonnegative solar, load and grid export limit, and any
battery state, the returned FlowRecord satisfies
`solar_to_load + battery_discharge + grid_import = load_demand` exactly. -/
theorem decide_energy_flow_load_balance (name : String) (solar load : ℚ)
    (b : Battery) (grid_limit : ℚ)
    (hs : 0 ≤ solar) (hl : 0 ≤ load) (hg : 0 ≤ grid_limit) :
    ((EnergyManager.mk name).decide_energy_flow solar load b grid_limit).1.solar_to_load
      + ((EnergyManager.mk name).decide_energy_flow solar load b grid_limit).1.battery_discharge
      + ((EnergyManager.mk name).decide_energy_flow solar load b grid_limit).1.grid_import
      = load := by
  simp only [EnergyManager.decide_energy_flow]
  split_ifs <;>
    first
      | exact run_load_priority_load_balance solar load b grid_limit
      | exact run_charge_priority_load_balance solar load b grid_limit
      | exact run_produce_priority_load_balance solar load b grid_limit

/-- Witness for C2 with an unrecognised strategy name (fallback path). -/
theorem decide_energy_flow_load_balance_witness :
    ((EnergyManager.mk "UNKNOWN").decide_energy_flow 3 5 bHalf 2).1.solar_to_load
      + ((EnergyManager.mk "UNKNOWN").decide_energy_flow 3 5 bHalf 2).1.battery_discharge
      + ((EnergyManager.mk "UNKNOWN").decide_energy_flow 3 5 bHalf 2).1.grid_import
      = 5 :=
  decide_energy_flow_load_balance "UNKNOWN" 3 5 bHalf 2 (by norm_num) (by norm_num)
    (by norm_num)

/-- C8: for every strategy name (the three recognised ones and the
fallback) and all nonnegative solar, load and grid export limit, the
returned FlowRecord satisfies
`solar_to_load + solar_to_battery + solar_to_grid + curtailed = solar`
exactly (the one-way efficiency is nonnegative by construction,
`sqrt(efficiency_rt)`). -/
theorem decide_energy_flow_solar_allocation (name : String) (solar load : ℚ)
    (b : Battery) (grid_limit : ℚ) (heff : 0 ≤ b.efficiency_ow)
    (hs : 0 ≤ solar) (hl : 0 ≤ load) (hg : 0 ≤ grid_limit) :
    ((EnergyManager.mk name).decide_energy_flow solar load b grid_limit).1.solar_to_load
      + ((EnergyManager.mk name).decide_energy_flow solar load b grid_limit).1.solar_to_battery
      + ((EnergyManager.mk name).decide_energy_flow solar load b grid_limit).1.solar_to_grid
      + ((EnergyManager.mk name).decide_energy_flow solar load b grid_limit).1.curtailed
      = solar := by
  simp only [EnergyManager.decide_energy_flow]
  split_ifs <;>
    first
      | exact run_load_priority_solar_allocation solar load b grid_limit heff
      | exact run_charge_priority_solar_allocation solar load b grid_limit
      | exact run_produce_priority_solar_allocation solar load b grid_limit

/-- Witness for C8 under CHARGE_PRIORITY at concrete inputs. -/
theorem decide_energy_flow_solar_allocation_witness :
    ((EnergyManager.mk "CHARGE_PRIORITY").decide_energy_flow 7 1 bHalf 2).1.solar_to_load
      + ((EnergyManager.mk "CHARGE_PRIORITY").decide_energy_flow 7 1 bHalf 2).1.solar_to_battery
      + ((EnergyManager.mk "CHARGE_PRIORITY").decide_energy_flow 7 1 bHalf 2).1.solar_to_grid
      + ((EnergyManager.mk "CHARGE_PRIORITY").decide_energy_flow 7 1 bHalf 2).1.curtailed
      = 7 :=
  decide_energy_flow_solar_allocation "CHARGE_PRIORITY" 7 1 bHalf 2
    (by norm_num [bHalf]) (by norm_num) (by norm_num) (by norm_num)

/-- C4 counterexample battery: completely full (stored energy equals
capacity), so charging has no headroom. -/
def bFullBat : Battery :=
  { capacity_kwh := 10, efficiency_rt := 81/100, min_soc_limit_pct := 1/20,
    current_energy_kwh := 10, efficiency_ow := 9/10 }

/-- C4 (counterexample): under PRODUCE_PRIORITY the curtailed field is NOT
always 0: with solar 10, load 0, grid limit 0 and a full battery, the
battery absorbs nothing (clipped to zero headroom) and the whole 10 kW is
curtailed. -/
theorem produce_priority_curtailed_counterexample :
    (0:ℚ) ≤ 10 ∧ (0:ℚ) ≤ 0 ∧ bFullBat.SocInvariant ∧
    ((EnergyManager.mk "PRODUCE_PRIORITY").decide_energy_flow 10 0 bFullBat 0).1.curtailed
      = 10 := by
  refine ⟨by norm_num, le_refl 0, by norm_num [bFullBat, Battery.SocInvariant], ?_⟩
  simp only [EnergyManager.decide_energy_flow]
  rw [if_neg (by decide), if_neg (by decide)]
  norm_num [run_produce_priority, FlowRecord.empty, Battery.charge, bFullBat]

/-- C4 (amended): under PRODUCE_PRIORITY with nonnegative solar, load and
grid export limit, the curtailed field is 0 whenever the battery has enough
headroom to absorb all solar remaining after export (no charge clipping);
without that condition curtailment can be positive. -/
theorem produce_priority_curtailed_zero (solar load : ℚ) (b : Battery) (grid_limit : ℚ)
    (hs : 0 ≤ solar) (hl : 0 ≤ load) (hg : 0 ≤ grid_limit)
    (hroom : (solar - min solar grid_limit) * b.efficiency_ow
      ≤ b.capacity_kwh - b.current_energy_kwh) :
    ((EnergyManager.mk "PRODUCE_PRIORITY").decide_energy_flow
      solar load b grid_limit).1.curtailed = 0 := by
  have hmin : min solar grid_limit ≤ solar := min_le_left _ _
  have hcharge := b.charge_no_clip (solar - min solar grid_limit) hroom
  simp only [EnergyManager.decide_energy_flow]
  rw [if_neg (by decide), if_neg (by decide), if_pos trivial]
  simp only [run_produce_priority]
  rw [hcharge]
  split_ifs <;> simp_all [FlowRecord.empty] <;> linarith

/-- Witness for the amended C4 at concrete inputs with charge headroom. -/
theorem produce_priority_curtailed_zero_witness :
    ((EnergyManager.mk "PRODUCE_PRIORITY").decide_energy_flow 2 1 bHalf 0).1.curtailed
      = 0 :=
  produce_priority_curtailed_zero 2 1 bHalf 0 (by norm_num) (by norm_num) (by norm_num)
    (by norm_num [bHalf])

/-! ## Inverter lemmas -/

lemma Inverter.clip_power_broken_countdown (inv : Inverter) (r : StepRand) (dc : ℚ)
    (hb : inv.is_broken = true) (hh : 2 ≤ inv.hours_until_repair) :
    inv.clip_power r dc =
      (0, { inv with hours_until_repair := inv.hours_until_repair - 1 }) := by
  simp only [Inverter.clip_power, Inverter.check_status, hb, if_true]
  split_ifs <;> first | (exfalso; omega) | simp_all

lemma Inverter.clip_power_resume (j : Inverter) (r : StepRand) (dc : ℚ)
    (hb : j.is_broken = true) (hh : j.hours_until_repair ≤ 1)
    (hroll : ¬ r.roll < j.failure_probability) :
    (j.clip_power r dc).1 = min dc j.max_output_kw ∧
    (j.clip_power r dc).2.is_broken = false := by
  simp only [Inverter.clip_power, Inverter.check_status, hb, if_true,
    Inverter.roll_failure]
  split_ifs <;> first | (exfalso; omega) | simp_all

lemma Inverter.clip_power_break (j : Inverter) (r : StepRand) (dc : ℚ)
    (hb : j.is_broken = false) (hroll : r.roll < j.failure_probability) :
    (j.clip_power r dc).1 = 0 ∧ (j.clip_power r dc).2.is_broken = true ∧
    (j.clip_power r dc).2.hours_until_repair = r.dur := by
  simp only [Inverter.clip_power, Inverter.check_status, hb,
    Inverter.roll_failure, Bool.false_eq_true, if_false]
  split_ifs <;> simp_all

lemma Inverter.check_status_fresh_duration (j : Inverter) (r : StepRand)
    (hb : j.is_broken = false)
    (hmin : j.min_repair_time ≤ r.dur) (hmax : r.dur ≤ j.max_repair_time)
    (hpost : (j.check_status r).2.is_broken = true) :
    j.min_repair_time ≤ (j.check_status r).2.hours_until_repair ∧
    (j.check_status r).2.hours_until_repair ≤ j.max_repair_time := by
  have h := hpost
  simp only [Inverter.check_status, hb, Inverter.roll_failure,
    Bool.false_eq_true, if_false] at h ⊢
  split_ifs at h ⊢ with hc
  · simp_all
  · exfalso
    simp only [] at h
    rw [hb] at h
    exact Bool.false_ne_true h

/-- Repair countdown: from a broken inverter with `h >= 1` remaining hours,
the next `h - 1` `clip_power` calls all output 0 (whatever the random draws
and DC inputs are) and leave the inverter broken with counter 1. -/
lemma Inverter.run_clip_broken_window (steps : List (StepRand × ℚ)) (inv : Inverter)
    (hb : inv.is_broken = true) (h1 : 1 ≤ inv.hours_until_repair)
    (hlen : steps.length = (inv.hours_until_repair - 1).toNat) :
    (∀ q ∈ (inv.run_clip steps).1, q = 0) ∧
    (inv.run_clip steps).2 = { inv with hours_until_repair := 1 } := by
  induction steps generalizing inv with
  | nil =>
    have hh : inv.hours_until_repair = 1 := by
      simp only [List.length_nil] at hlen; omega
    constructor
    · intro q hq
      simp [Inverter.run_clip] at hq
    · cases inv
      simp_all [Inverter.run_clip]
  | cons s rest ih =>
    have h2 : 2 ≤ inv.hours_until_repair := by
      simp only [List.length_cons] at hlen; omega
    have hstep := Inverter.clip_power_broken_countdown inv s.1 s.2 hb h2
    have hrec := ih { inv with hours_until_repair := inv.hours_until_repair - 1 }
      (by simp [hb]) (by simp; omega)
      (by simp only [List.length_cons] at hlen; simp; omega)
    simp only [Inverter.run_clip, hstep]
    constructor
    · intro q hq
      simp only [List.mem_cons] at hq
      rcases hq with rfl | hq
      · rfl
      · exact hrec.1 q hq
    · simpa using hrec.2

/-- C6: once broken with `h` hours drawn, `clip_power` outputs exactly 0 for
each of the `h - 1` following steps; on the step after the countdown ends a
non-failing roll resumes normal clipping `min(dc, max_output_kw)`; and a
fresh breakdown of a working inverter stores the drawn duration, which lies
in `[min_repair_time, max_repair_time]` whenever the drawn value does (the
contract of `random.randint`). -/
theorem inverter_breakdown_window (steps : List (StepRand × ℚ)) (inv : Inverter)
    (hb : inv.is_broken = true) (h1 : 1 ≤ inv.hours_until_repair)
    (hlen : steps.length = (inv.hours_until_repair - 1).toNat) :
    (∀ q ∈ (inv.run_clip steps).1, q = 0) ∧
    (inv.run_clip steps).2 = { inv with hours_until_repair := 1 } ∧
    (∀ (r : StepRand) (dc : ℚ), ¬ r.roll < inv.failure_probability →
      ((inv.run_clip steps).2.clip_power r dc).1 = min dc inv.max_output_kw ∧
      ((inv.run_clip steps).2.clip_power r dc).2.is_broken = false) ∧
    (∀ (j : Inverter) (r : StepRand),
      j.is_broken = false → j.min_repair_time ≤ r.dur → r.dur ≤ j.max_repair_time →
      (j.check_status r).2.is_broken = true →
      j.min_repair_time ≤ (j.check_status r).2.hours_until_repair ∧
      (j.check_status r).2.hours_until_repair ≤ j.max_repair_time) := by
  obtain ⟨hout, hfin⟩ := Inverter.run_clip_broken_window steps inv hb h1 hlen
  refine ⟨hout, hfin, ?_, ?_⟩
  · intro r dc hroll
    rw [hfin]
    exact Inverter.clip_power_resume _ r dc (by simp [hb]) (by simp) hroll
  · intro j r hjb hmin hmax hpost
    exact Inverter.check_status_fresh_duration j r hjb hmin hmax hpost

/-- C6 witness inverter: broken, 3 hours of repair left. -/
def invBroken : Inverter :=
  { max_output_kw := 4, failure_probability := 1/200, min_repair_time := 4,
    max_repair_time := 72, is_broken := true, hours_until_repair := 3 }

/-- Witness for C6: the two steps after the breakdown output 0 and leave the
counter at 1. -/
theorem inverter_breakdown_window_witness :
    (∀ q ∈ (invBroken.run_clip [(⟨1/2, 10⟩, 3), (⟨1/2, 10⟩, 5)]).1, q = 0) ∧
    (invBroken.run_clip [(⟨1/2, 10⟩, 3), (⟨1/2, 10⟩, 5)]).2
      = { invBroken with hours_until_repair := 1 } := by
  have h := inverter_breakdown_window [(⟨1/2, 10⟩, 3), (⟨1/2, 10⟩, 5)] invBroken
    rfl (by norm_num [invBroken]) (by simp [invBroken])
  exact ⟨h.1, h.2.1⟩

/-- C10: a `check_status` call on a broken inverter whose counter is 1
completes the repair and rolls for a new failure in the same invocation:
with a failing roll it returns False and leaves the inverter broken again
with the freshly drawn duration. -/
theorem check_status_double_transition (inv : Inverter) (r : StepRand)
    (hb : inv.is_broken = true) (hh : inv.hours_until_repair = 1)
    (hroll : r.roll < inv.failure_probability) :
    (inv.check_status r).1 = false ∧
    (inv.check_status r).2.is_broken = true ∧
    (inv.check_status r).2.hours_until_repair = r.dur := by
  simp only [Inverter.check_status, hb, if_true, Inverter.roll_failure]
  split_ifs <;> first | (exfalso; omega) | simp_all

/-- Witness for C10: counter 1, roll 0 < 1/200, drawn duration 33. -/
theorem check_status_double_transition_witness :
    ((⟨4, 1/200, 4, 72, true, 1⟩ : Inverter).check_status ⟨0, 33⟩).1 = false ∧
    ((⟨4, 1/200, 4, 72, true, 1⟩ : Inverter).check_status ⟨0, 33⟩).2.is_broken = true ∧
    ((⟨4, 1/200, 4, 72, true, 1⟩ : Inverter).check_status ⟨0, 33⟩).2.hours_until_repair
      = (⟨0, 33⟩ : StepRand).dur :=
  check_status_double_transition ⟨4, 1/200, 4, 72, true, 1⟩ ⟨0, 33⟩ rfl rfl
    (by norm_num)

/-- C7: solar generation is 0 outside the daylight window [6,18] for any
cloud value, equals `panel_peak_kw` at solar noon with clear sky, equals 0
at both window edges, matches the clipped sine formula inside the window,
and is never negative. -/
theorem solar_generation_spec (p : SolarPanel) (hpeak : 0 ≤ p.peak_power_kw) :
    (∀ h c : ℝ, h < 6 ∨ h > 18 → p.get_generation h c = 0) ∧
    p.get_generation 12 0 = p.peak_power_kw ∧
    (∀ c : ℝ, p.get_generation 6 c = 0 ∧ p.get_generation 18 c = 0) ∧
    (∀ h c : ℝ, 6 ≤ h → h ≤ 18 →
      p.get_generation h c =
        max 0 (p.peak_power_kw * Real.sin ((h - 6) * (Real.pi / 12)) * (1 - c))) ∧
    (∀ h c : ℝ, 0 ≤ p.get_generation h c) := by
  refine ⟨?_, ?_, ?_, ?_, ?_⟩
  · intro h c hout
    simp only [SolarPanel.get_generation]
    rw [if_pos hout]
  · simp only [SolarPanel.get_generation]
    rw [if_neg (by norm_num)]
    have hang : ((12:ℝ) - 6) * (Real.pi / 12) = Real.pi / 2 := by ring
    rw [hang, Real.sin_pi_div_two]
    rw [show (1:ℝ) - 0 = 1 by norm_num, mul_one, mul_one]
    exact max_eq_right hpeak
  · intro c
    constructor
    · simp only [SolarPanel.get_generation]
      rw [if_neg (by norm_num)]
      rw [show ((6:ℝ) - 6) * (Real.pi / 12) = 0 by ring, Real.sin_zero]
      simp
    · simp only [SolarPanel.get_generation]
      rw [if_neg (by norm_num)]
      rw [show ((18:ℝ) - 6) * (Real.pi / 12) = Real.pi by ring, Real.sin_pi]
      simp
  · intro h c h6 h18
    simp only [SolarPanel.get_generation]
    rw [if_neg (by push_neg; exact ⟨h6, h18⟩)]
  · intro h c
    simp only [SolarPanel.get_generation]
    split_ifs
    · exact le_refl 0
    · exact le_max_left 0 _

/-- Witness for C7 at peak power 5: noon clear-sky output is 5 kW and the
output at hour 20 is 0. -/
theorem solar_generation_spec_witness :
    SolarPanel.get_generation ⟨5⟩ 12 0 = 5 ∧
    SolarPanel.get_generation ⟨5⟩ 20 0 = 0 := by
  have h := solar_generation_spec ⟨5⟩ (by norm_num)
  exact ⟨h.2.1, h.1 20 0 (by norm_num)⟩
